import Mathlib

/-!
Verification of the llmzoomcamp RAG application against its specification.

The development shallowly embeds the Python sources:
 * `utils.py`      — text cleaning (`clean_text`, `clean_data`),
 * `ingest.py`     — dataset preparation and Qdrant ingestion
                     (`prepare_data`, `create_embeddings`, `ingest_data`),
 * `app/llm_assistant.py` — the retrieval / prompt / generation pipeline
                     (`rrf_search`, `build_prompt`, `llm_response`, `rag`).

Python strings are Lean `String`s, dicts with string keys are association
lists, wall-clock instants are rationals threaded explicitly, and calls to
external services (Qdrant, the Groq LLM API) are parameters of the embedded
functions.  Fallible code returns `Except`.
-/

namespace RagSpec

/-! ### utils.py -/

/-- Value of a hexadecimal digit character, as recognised by
`urllib.parse.unquote` (`0-9`, `a-f`, `A-F`). -/
def hexDigit? (c : Char) : Option Nat :=
  if '0' ≤ c ∧ c ≤ '9' then some (c.toNat - 48)
  else if 'a' ≤ c ∧ c ≤ 'f' then some (c.toNat - 87)
  else if 'A' ≤ c ∧ c ≤ 'F' then some (c.toNat - 55)
  else none

/-- UTF-8 decoding with U+FFFD replacement, fuel-indexed so that the
recursion is structural (each step consumes at least one byte, so any
fuel of at least the list's length gives the untruncated decoding). -/
def utf8DecodeReplaceFuel : Nat → List Nat → List Char
  | _, [] => []
  | 0, _ :: _ => []
  | fuel + 1, b :: bs =>
    if b < 0x80 then
      Char.ofNat b :: utf8DecodeReplaceFuel fuel bs
    else if 0xC2 ≤ b ∧ b ≤ 0xDF then
      match bs with
      | b1 :: bs' =>
        if 0x80 ≤ b1 ∧ b1 ≤ 0xBF then
          Char.ofNat (((b - 0xC0) <<< 6) + (b1 - 0x80)) ::
            utf8DecodeReplaceFuel fuel bs'
        else '�' :: utf8DecodeReplaceFuel fuel (b1 :: bs')
      | [] => ['�']
    else if 0xE0 ≤ b ∧ b ≤ 0xEF then
      match bs with
      | b1 :: b2 :: bs' =>
        if (if b = 0xE0 then 0xA0 ≤ b1 ∧ b1 ≤ 0xBF
            else if b = 0xED then 0x80 ≤ b1 ∧ b1 ≤ 0x9F
            else 0x80 ≤ b1 ∧ b1 ≤ 0xBF) ∧ 0x80 ≤ b2 ∧ b2 ≤ 0xBF then
          Char.ofNat (((b - 0xE0) <<< 12) + ((b1 - 0x80) <<< 6) + (b2 - 0x80)) ::
            utf8DecodeReplaceFuel fuel bs'
        else '�' :: utf8DecodeReplaceFuel fuel (b1 :: b2 :: bs')
      | [b1] => '�' :: utf8DecodeReplaceFuel fuel [b1]
      | [] => ['�']
    else if 0xF0 ≤ b ∧ b ≤ 0xF4 then
      match bs with
      | b1 :: b2 :: b3 :: bs' =>
        if (if b = 0xF0 then 0x90 ≤ b1 ∧ b1 ≤ 0xBF
            else if b = 0xF4 then 0x80 ≤ b1 ∧ b1 ≤ 0x8F
            else 0x80 ≤ b1 ∧ b1 ≤ 0xBF) ∧ 0x80 ≤ b2 ∧ b2 ≤ 0xBF
            ∧ 0x80 ≤ b3 ∧ b3 ≤ 0xBF then
          Char.ofNat (((b - 0xF0) <<< 18) + ((b1 - 0x80) <<< 12) +
              ((b2 - 0x80) <<< 6) + (b3 - 0x80)) :: utf8DecodeReplaceFuel fuel bs'
        else '�' :: utf8DecodeReplaceFuel fuel (b1 :: b2 :: b3 :: bs')
      | [b1, b2] => '�' :: utf8DecodeReplaceFuel fuel [b1, b2]
      | [b1] => '�' :: utf8DecodeReplaceFuel fuel [b1]
      | [] => ['�']
    else '�' :: utf8DecodeReplaceFuel fuel bs

/-- UTF-8 decoding of a byte sequence with U+FFFD replacement of invalid
sequences, modelling Python `bytes.decode("utf-8", errors="replace")`
(replacement granularity: one U+FFFD per offending byte). -/
def utf8DecodeReplace (bs : List Nat) : List Char :=
  utf8DecodeReplaceFuel bs.length bs

/-- Core loop of `urllib.parse.unquote`: maximal runs of valid `%XX`
escapes are collected as bytes (accumulated, reversed, in `acc`) and UTF-8
decoded when the run ends; a `%` not followed by two hex digits stays
literal. -/
def unquoteAux : List Char → List Nat → List Char
  | [], acc => utf8DecodeReplace acc.reverse
  | '%' :: h1 :: h2 :: rest, acc =>
    match hexDigit? h1, hexDigit? h2 with
    | some a, some b => unquoteAux rest ((16 * a + b) :: acc)
    | _, _ =>
      utf8DecodeReplace acc.reverse ++ '%' :: unquoteAux (h1 :: h2 :: rest) []
  | c :: rest, acc => utf8DecodeReplace acc.reverse ++ c :: unquoteAux rest []

/-- `urllib.parse.unquote` with its default arguments
(`encoding="utf-8"`, `errors="replace"`). -/
def unquote (s : String) : String := ⟨unquoteAux s.data []⟩

/-- Python `str.replace(old, new)` for a one-character `old`:
every occurrence of `old` is replaced by `new`. -/
def strReplaceChar (s : String) (old : Char) (new : String) : String :=
  ⟨(s.data.map fun c => if c = old then new.data else [c]).flatten⟩

/-- `utils.clean_text`: decode URL escapes, then turn underscores into
spaces.  (The `try/except` in the source is dead with default arguments:
`unquote` does not raise.) -/
def clean_text (s : String) : String := strReplaceChar (unquote s) '_' " "

/-! ### ingest.py -/

def DENSE_MODEL : String := "jinaai/jina-embeddings-v2-small-en"

def SPARSE_MODEL : String := "Qdrant/bm25"

/-- `ingest.COLLECTION_NAME`, the collection ingestion writes to. -/
def COLLECTION_NAME : String := "squad_v2"

/-- The metadata dict attached to every ingested document
(`ingest.prepare_data`) and read back by `build_prompt`. -/
structure Metadata where
  title : String
  context : String
  question : String
  answer : String
  has_answer : Bool
deriving DecidableEq, Repr

/-- A raw SQuAD v2 record as consumed by `prepare_data`: the fields it
reads (`title`, `context`, `question`, `answers["text"]`). -/
structure RawRecord where
  title : String
  context : String
  question : String
  answersText : List String
deriving DecidableEq, Repr

/-- `utils.clean_data` restricted to the record shape above: recursively
applies `clean_text` to every string. -/
def clean_record (r : RawRecord) : RawRecord :=
  { title := clean_text r.title
    context := clean_text r.context
    question := clean_text r.question
    answersText := r.answersText.map clean_text }

/-- An embedding-ready document (element of `prepare_data`'s output). -/
structure EmbDocument where
  text : String
  metadata : Metadata
deriving DecidableEq, Repr

/-- The local variable `answer` of `prepare_data`'s loop body: the first
answer string with its double quotes removed, or `""` when there is
none. -/
def extracted_answer (doc : RawRecord) : String :=
  match doc.answersText with
  | [] => ""
  | a :: _ => strReplaceChar a '"' ""

/-- Body of the loop in `ingest.prepare_data` for one (already cleaned)
record. -/
def prepare_one (doc : RawRecord) : EmbDocument :=
  { text := "Question: " ++ doc.question ++ " Context: " ++ doc.context
    metadata :=
      { title := doc.title
        context := strReplaceChar doc.context '\n' " "
        question := strReplaceChar doc.question '\n' " "
        answer := extracted_answer doc
        has_answer := extracted_answer doc ≠ "" } }

/-- `ingest.prepare_data`: clean every record, then build the embedding
documents. -/
def prepare_data (data : List RawRecord) : List EmbDocument :=
  (data.map clean_record).map prepare_one

/-- A Qdrant point payload: `{"metadata": {...}}`. -/
structure Payload where
  metadata : Metadata
deriving DecidableEq, Repr

/-- A point as built by `ingest.create_embeddings` (the embedding vectors
are computed server-side from `Document(text, model)` and carry no
information beyond `text`, which we keep). -/
structure IngestPoint where
  id : String
  text : String
  payload : Payload
deriving DecidableEq, Repr

/-- `ingest.create_embeddings` (point construction; `idOf` models the
fresh `uuid.uuid4().hex` drawn for the point at each position). -/
def create_embeddings (idOf : Nat → String) (documents : List EmbDocument) :
    List IngestPoint :=
  documents.enum.map fun p =>
    { id := idOf p.1, text := p.2.text, payload := { metadata := p.2.metadata } }

/-- The Qdrant server state: points stored per collection name. -/
def QdrantDB : Type := String → List IngestPoint

/-- `client.upsert(collection_name=coll, points=ps)`. -/
def upsert (db : QdrantDB) (coll : String) (ps : List IngestPoint) : QdrantDB :=
  fun c => if c = coll then db c ++ ps else db c

/-- `ingest.ingest_data`: upsert into `COLLECTION_NAME`. -/
def ingest_data (db : QdrantDB) (ps : List IngestPoint) : QdrantDB :=
  upsert db COLLECTION_NAME ps

/-! ### app/llm_assistant.py — configuration and retrieval -/

def dense_model : String := "jinaai/jina-embeddings-v2-small-en"

def sparse_model : String := "Qdrant/bm25"

/-- `llm_assistant.collection_name`, the collection `rrf_search` queries. -/
def collection_name : String := "squad_rag"

/-- One `models.Prefetch(...)` entry of the hybrid query. -/
structure Prefetch where
  queryText : String
  model : String
  usingName : String
  limit : Nat
deriving DecidableEq, Repr

inductive Fusion where
  | RRF
deriving DecidableEq, Repr

/-- The request `rrf_search` hands to `qdrant_client.query_points`. -/
structure QueryRequest where
  collection : String
  prefetch : List Prefetch
  fusion : Fusion
  withPayload : Bool
  limit : Nat
deriving DecidableEq, Repr

/-- The `query_points` call constructed in `rrf_search` for a `query`
string and a result `limit`. -/
def rrf_request (query : String) (limit : Nat) : QueryRequest :=
  { collection := collection_name
    prefetch :=
      [ { queryText := query, model := dense_model
          usingName := "jina-small", limit := 3 * limit }
      , { queryText := query, model := sparse_model
          usingName := "bm25", limit := 3 * limit } ]
    fusion := Fusion.RRF
    withPayload := true
    limit := limit }

/-- A scored point returned by Qdrant (`models.ScoredPoint`); its `score`
float is modelled as a rational. -/
structure ScoredPoint where
  id : String
  score : ℚ
  payload : Payload
deriving DecidableEq, Repr

/-- The external vector-search service: fused candidates per request. -/
def VectorStore : Type := QueryRequest → List ScoredPoint

/-- The wall-clock instants observed by the six `time.time()` calls of one
`rag` invocation, in program order: `t0`/`t5` around `rag`, `t1`/`t2`
around the retrieval, `t3`/`t4` around the generation. -/
structure ClockTrace where
  t0 : ℚ
  t1 : ℚ
  t2 : ℚ
  t3 : ℚ
  t4 : ℚ
  t5 : ℚ
deriving DecidableEq, Repr

/-- The wall clock is monotone during the call. -/
def ClockMono (c : ClockTrace) : Prop :=
  c.t0 ≤ c.t1 ∧ c.t1 ≤ c.t2 ∧ c.t2 ≤ c.t3 ∧ c.t3 ≤ c.t4 ∧ c.t4 ≤ c.t5

/-- Python `int(...)` on a real value: truncation toward zero. -/
def pyInt (x : ℚ) : ℤ := if 0 ≤ x then ⌊x⌋ else ⌈x⌉

/-- The dict returned by `rrf_search`. -/
structure RetrievalOutcome where
  points : List ScoredPoint
  retrieval_time_ms : ℤ
  retrieved_docs_count : Nat
deriving DecidableEq, Repr

/-- `llm_assistant.rrf_search`: issue the hybrid fused query and wrap the
result with timing metrics. -/
def rrf_search (vs : VectorStore) (c : ClockTrace) (query : String)
    (limit : Nat) : RetrievalOutcome :=
  let results := vs (rrf_request query limit)
  { points := results
    retrieval_time_ms := pyInt ((c.t2 - c.t1) * 1000)
    retrieved_docs_count := results.length }

/-! ### app/llm_assistant.py — prompt construction -/

/-- Python `str.ljust(width)`: pad on the right with spaces up to
`width`; a string at least `width` long is returned unchanged. -/
def ljust (s : String) (width : Nat) : String :=
  s ++ ⟨List.replicate (width - s.length) ' '⟩

/-- Python `str(b)` for a bool, as interpolated by an f-string. -/
def pyBoolStr (b : Bool) : String := if b then "True" else "False"

/-- Python `sep.join(l)`. -/
def pyJoin (sep : String) : List String → String
  | [] => ""
  | [x] => x
  | x :: xs => x ++ sep ++ pyJoin sep xs

/-- Python whitespace (`str.strip`'s default set, ASCII part). -/
def pyIsSpace (c : Char) : Bool :=
  c = ' ' ∨ c = '\t' ∨ c = '\n' ∨ c = '\x0d' ∨ c = '\x0b' ∨ c = '\x0c'

/-- Python `str.strip()`. -/
def pyStrip (s : String) : String :=
  ⟨((s.data.dropWhile pyIsSpace).reverse.dropWhile pyIsSpace).reverse⟩

/-- The four-line block `build_prompt` renders for one retrieved result
(one element of its list comprehension). -/
def render_block (md : Metadata) : String :=
  ljust "Context:" 10 ++ md.context ++ "\n" ++
    ljust "Question:" 10 ++ md.question ++ "\n" ++
    ljust "Answer:" 10 ++ md.answer ++ "\n" ++
    ljust "Has_answer:" 10 ++ pyBoolStr md.has_answer

/-- The `context` variable of `build_prompt`: blocks joined by a blank
line. -/
def build_context (search_results : List ScoredPoint) : String :=
  pyJoin "\n\n" (search_results.map fun res => render_block res.payload.metadata)

/-- A `{"role": ..., "content": ...}` chat turn. -/
structure Turn where
  role : String
  content : String
deriving DecidableEq, Repr

/-- The system turn's content, transcribed verbatim from the triple-quoted
string in `build_prompt` (including its 12-space indentation and the
misspelling "beyong"). -/
def systemContent : String :=
  "You are a precise and reliable assistant. Your goal is to answer the question using *only* the information provided in the CONTEXT. Do not guess or make up any information.\n            Instructions:\n            - If the `Has_answer` flag is False, check the context carefully for relevant details. If no answer is clearly supported, reply with: \"I don't know. This is beyong my knowledge base.\"\n            - If the answer *is* supported in the context, rephrase and present it clearly and concisely, ensuring it is directly grounded in the information provided.\n            - Do not use any external knowledge or assumptions. Stick strictly to the *CONTEXT*.\n            - Do not fabricate answers or speculate beyond the given information."

/-- `llm_assistant.build_prompt`. -/
def build_prompt (query : String) (search_results : List ScoredPoint) :
    List Turn :=
  [ { role := "system", content := systemContent }
  , { role := "user"
      content := "QUESTION:\n " ++ query ++ "\n CONTEXT:\n " ++
        pyStrip (build_context search_results) } ]

/-! ### app/llm_assistant.py — generation and orchestration -/

/-- Token usage reported by the completion service. -/
structure Usage where
  prompt_tokens : Nat
  completion_tokens : Nat
  total_tokens : Nat
deriving DecidableEq, Repr

/-- One choice of a chat-completion response (its message content). -/
structure Choice where
  content : String
deriving DecidableEq, Repr

/-- A chat-completion response. -/
structure LlmApiResponse where
  choices : List Choice
  usage : Usage
deriving DecidableEq, Repr

/-- The request `llm_response` sends via
`client.chat.completions.create`. -/
structure LlmRequest where
  messages : List Turn
  model : String
deriving DecidableEq

/-- The external LLM completion service; `.error` models a raised
exception of the service call. -/
def LlmService : Type := LlmRequest → Except String LlmApiResponse

/-- A metric value: a number or a string. -/
inductive MetricValue where
  | num (n : ℤ)
  | str (s : String)
deriving DecidableEq, Repr

/-- Default of `llm_response`'s `model` parameter. -/
def llm_default_model : String := "openai/gpt-oss-20b"

/-- The dict returned by `llm_response`; `metrics` is the inner metrics
dict as an ordered association list. -/
structure LlmResult where
  content : String
  metrics : List (String × MetricValue)
deriving DecidableEq, Repr

/-- The error Python raises on `response.choices[0]` when the choice list
is empty. -/
def indexErrorMsg : String := "IndexError: list index out of range"

/-- `llm_assistant.llm_response`: one completion request plus metric
extraction.  Service failure or a missing choice is an error and is not
caught. -/
def llm_response (svc : LlmService) (c : ClockTrace) (prompt : List Turn)
    (model : String) : Except String LlmResult :=
  match svc { messages := prompt, model := model } with
  | .error e => .error e
  | .ok response =>
    match response.choices with
    | [] => .error indexErrorMsg
    | choice :: _ =>
      .ok { content := choice.content
            metrics :=
              [ ("total_tokens", .num response.usage.total_tokens)
              , ("generation_time_ms", .num (pyInt ((c.t4 - c.t3) * 1000)))
              , ("model_used", .str model) ] }

/-- Default of `rrf_search`'s `limit` parameter, used by `rag`'s call
`rrf_search(query)`. -/
def rrf_search_default_limit : Nat := 2

/-- The retrieval phase of `rag` (its call `rrf_search(query)`). -/
def rag_retrieval (vs : VectorStore) (c : ClockTrace) (query : String) :
    RetrievalOutcome :=
  rrf_search vs c query rrf_search_default_limit

/-- The chat-completion request `rag` causes `llm_response` to send. -/
def rag_llm_request (vs : VectorStore) (c : ClockTrace) (query : String) :
    LlmRequest :=
  { messages := build_prompt query (rag_retrieval vs c query).points
    model := llm_default_model }

/-- A value of the dict `rag` returns: the answer string or the nested
metrics dict. -/
inductive TopValue where
  | str (s : String)
  | dict (d : List (String × MetricValue))
deriving DecidableEq, Repr

/-- Python dict key lookup on an ordered association list. -/
def dictGet {α : Type} (d : List (String × α)) (k : String) : Option α :=
  (d.find? fun p => p.1 = k).map Prod.snd

/-- `llm_assistant.rag`: the full pipeline.  The result dict has the keys
`answer` and `metrics`; `metrics` merges `llm_result["metrics"]` with the
orchestrator's own entries, in source order. -/
def rag (vs : VectorStore) (svc : LlmService) (c : ClockTrace)
    (query : String) : Except String (List (String × TopValue)) :=
  let search_results := rag_retrieval vs c query
  let prompt := build_prompt query search_results.points
  match llm_response svc c prompt llm_default_model with
  | .error e => .error e
  | .ok llm_result =>
    .ok [ ("answer", .str llm_result.content)
        , ("metrics", .dict (llm_result.metrics ++
            [ ("retrieval_time_ms", .num search_results.retrieval_time_ms)
            , ("total_time_ms", .num (pyInt ((c.t5 - c.t0) * 1000)))
            , ("retrieved_docs_count", .num search_results.retrieved_docs_count)
            , ("qdrant_collection", .str collection_name) ])) ]

/-! ### app/app.py — the fields the chat UI reads from `rag`'s result -/

/-- Keys `app.py` reads from the top-level `rag` result when logging an
answer (`result["answer"]`, `result["context_used"]`,
`result["metrics"]`). -/
def app_result_reads : List String := ["answer", "context_used", "metrics"]

/-- Keys `app.py` reads from `result["metrics"]` in its `log_answer`
call. -/
def app_metrics_reads : List String :=
  [ "model_used", "retrieval_time_ms", "generation_time_ms", "total_time_ms"
  , "qdrant_collection", "retrieved_docs_count", "prompt_tokens"
  , "completion_tokens", "total_tokens" ]

/-! ### Helper lemmas -/

/-- Executable prefix test on character lists. -/
def isPrefixB : List Char → List Char → Bool
  | [], _ => true
  | _ :: _, [] => false
  | a :: as, b :: bs => a == b && isPrefixB as bs

/-- Executable substring-containment test on character lists (used to
evaluate `<:+:` facts on long strings). -/
def containsB (needle : List Char) : List Char → Bool
  | [] => needle.isEmpty
  | c :: t => isPrefixB needle (c :: t) || containsB needle t

theorem isPrefixB_iff : ∀ (l₁ l₂ : List Char), isPrefixB l₁ l₂ = true ↔ l₁ <+: l₂
  | [], l₂ => by simp [isPrefixB]
  | _ :: _, [] => by simp [isPrefixB]
  | a :: as, b :: bs => by
    simp [isPrefixB, List.cons_prefix_cons, isPrefixB_iff as bs]

theorem containsB_iff : ∀ (n h : List Char), containsB n h = true ↔ n <:+: h
  | n, [] => by simp [containsB, List.isEmpty_iff]
  | n, c :: t => by
    simp [containsB, List.infix_cons_iff, isPrefixB_iff, containsB_iff n t]

theorem enumFrom_map_snd {α β : Type} (f : α → β) :
    ∀ (n : Nat) (l : List α), ((List.enumFrom n l).map fun p => f p.2) = l.map f
  | _, [] => rfl
  | n, x :: xs => by simp [List.enumFrom, enumFrom_map_snd f (n + 1) xs]

/-- Replacing every `old` by an `old`-free `new` leaves no `old` in the
result. -/
theorem not_mem_strReplaceChar {old : Char} {new : String} (s : String)
    (hnew : old ∉ new.data) : old ∉ (strReplaceChar s old new).data := by
  intro hmem
  simp only [strReplaceChar, List.mem_flatten, List.mem_map] at hmem
  obtain ⟨l, ⟨c, _, hfc⟩, hol⟩ := hmem
  by_cases hco : c = old
  · rw [← hfc, if_pos hco] at hol
    exact hnew hol
  · rw [← hfc, if_neg hco] at hol
    exact hco (List.mem_singleton.mp hol).symm

/-- The four labelled lines of one rendered block (the specification's
view of `render_block`). -/
def blockLines (md : Metadata) : List String :=
  [ ljust "Context:" 10 ++ md.context
  , ljust "Question:" 10 ++ md.question
  , ljust "Answer:" 10 ++ md.answer
  , ljust "Has_answer:" 10 ++ pyBoolStr md.has_answer ]

/-- Lines of consecutive blocks separated by one blank line (the
specification's view of the joined context). -/
def linesWithBlankSep : List (List String) → List String
  | [] => []
  | [b] => b
  | b :: bs => b ++ [""] ++ linesWithBlankSep bs

theorem render_block_eq (md : Metadata) :
    render_block md = pyJoin "\n" (blockLines md) := by
  simp [render_block, blockLines, pyJoin, String.append_assoc]

theorem pyJoin_cons (sep x y : String) (xs : List String) :
    pyJoin sep (x :: y :: xs) = x ++ sep ++ pyJoin sep (y :: xs) := rfl

theorem pyJoin_append (sep : String) :
    ∀ (xs ys : List String), xs ≠ [] → ys ≠ [] →
      pyJoin sep (xs ++ ys) = pyJoin sep xs ++ sep ++ pyJoin sep ys
  | [], _, hx, _ => absurd rfl hx
  | [x], ys, _, hy => by
    rcases ys with _ | ⟨y, ys'⟩
    · exact absurd rfl hy
    · rfl
  | x :: x' :: xs', ys, _, hy => by
    have ih := pyJoin_append sep (x' :: xs') ys (by simp) hy
    simp only [List.cons_append] at ih ⊢
    rw [pyJoin_cons, ih, pyJoin_cons]
    simp [String.append_assoc]

theorem pyJoin_blank_cons (L : List String) (hL : L ≠ []) :
    pyJoin "\n" ("" :: L) = "\n" ++ pyJoin "\n" L := by
  rcases L with _ | ⟨y, ys⟩
  · exact absurd rfl hL
  · rw [pyJoin_cons, String.empty_append]

theorem linesWithBlankSep_ne_nil :
    ∀ (b : List String) (bs : List (List String)), b ≠ [] →
      linesWithBlankSep (b :: bs) ≠ []
  | b, [], hb => by simpa [linesWithBlankSep] using hb
  | b, b' :: bs', _ => by simp [linesWithBlankSep]

/-- Joining whole blocks with a blank line is the same as joining all
their lines with single newlines, with an empty line between blocks. -/
theorem pyJoin_blocks_eq : ∀ (blocks : List (List String)),
    (∀ b ∈ blocks, b ≠ []) →
    pyJoin "\n\n" (blocks.map (pyJoin "\n"))
      = pyJoin "\n" (linesWithBlankSep blocks)
  | [], _ => rfl
  | [b], _ => by simp [linesWithBlankSep, pyJoin]
  | b :: b' :: bs', h => by
    have hb : b ≠ [] := h b (by simp)
    have hb' : b' ≠ [] := h b' (by simp)
    have hrest := pyJoin_blocks_eq (b' :: bs')
      fun x hx => h x (List.mem_cons_of_mem _ hx)
    have hLne : linesWithBlankSep (b' :: bs') ≠ [] :=
      linesWithBlankSep_ne_nil b' bs' hb'
    have hstep : linesWithBlankSep (b :: b' :: bs')
        = b ++ ([""] ++ linesWithBlankSep (b' :: bs')) := by
      simp [linesWithBlankSep, List.append_assoc]
    simp only [List.map_cons] at hrest ⊢
    rw [pyJoin_cons, hrest, hstep,
      pyJoin_append "\n" b ([""] ++ linesWithBlankSep (b' :: bs')) hb (by simp),
      List.singleton_append, pyJoin_blank_cons _ hLne]
    simp only [String.append_assoc]
    rw [show ("\n\n" : String) = "\n" ++ "\n" from rfl, String.append_assoc]

/-! ### Claims -/

set_option maxRecDepth 4000

/-- C1: the claim asserts that the system turn of every `build_prompt`
output contains the exact literal fallback string
"I don't know. This is beyond my knowledge base.".  The code's system
turn instead instructs the fallback with the misspelling "beyong": the
misspelt literal is a substring of the system content and the claimed
literal is not. -/
theorem claim_C1_divergence (query : String) (search_results : List ScoredPoint) :
    (build_prompt query search_results).head?.map Turn.role = some "system"
    ∧ (build_prompt query search_results).head?.map Turn.content = some systemContent
    ∧ "I don't know. This is beyong my knowledge base.".data <:+: systemContent.data
    ∧ ¬ "I don't know. This is beyond my knowledge base.".data <:+: systemContent.data := by
  refine ⟨rfl, rfl, ?_, ?_⟩
  · rw [← containsB_iff]; decide
  · rw [← containsB_iff]; decide

/-- C2: ingestion writes to collection `COLLECTION_NAME` (`"squad_v2"`),
retrieval reads collection `collection_name` (`"squad_rag"`); the two
names differ, so although `create_embeddings` preserves every document's
metadata in the stored payload, a store populated only by `ingest_data`
holds nothing in the collection `rrf_search` queries, and the claimed
round trip cannot return the ingested document. -/
theorem claim_C2_divergence :
    COLLECTION_NAME ≠ collection_name
    ∧ (∀ (idOf : Nat → String) (docs : List EmbDocument),
        (create_embeddings idOf docs).map (fun p => p.payload.metadata)
          = docs.map EmbDocument.metadata)
    ∧ ∀ ps : List IngestPoint, ingest_data (fun _ => []) ps collection_name = [] := by
  refine ⟨by decide, ?_, ?_⟩
  · intro idOf docs
    rw [create_embeddings, List.map_map, List.enum]
    exact enumFrom_map_snd EmbDocument.metadata 0 docs
  · intro ps
    rw [ingest_data, upsert, if_neg (by decide)]

/-- C3: for every query and result sequence, `build_prompt` yields
exactly one system turn followed by exactly one user turn, and the user
turn's content contains the query string verbatim. -/
theorem claim_C3 (query : String) (search_results : List ScoredPoint) :
    (build_prompt query search_results).map Turn.role = ["system", "user"]
    ∧ ∃ u : Turn, (build_prompt query search_results).getLast? = some u
        ∧ query.data <:+: u.content.data := by
  refine ⟨rfl, ⟨_, rfl, ?_⟩⟩
  refine ⟨"QUESTION:\n ".data,
    ("\n CONTEXT:\n " ++ pyStrip (build_context search_results)).data, ?_⟩
  simp [build_prompt, String.data_append, List.append_assoc]

/-- C4 counterexample: for the record with answers list `["\"\""]` (a
first answer string consisting of two double-quote characters),
`prepare_data` strips the quotes, so the produced answer is `""` — not
the first string of the answers list — and `has_answer` is `false`
although that first string is non-empty. -/
theorem claim_C4_counterexample :
    ((prepare_data [⟨"t", "c", "q", ["\"\""]⟩]).map fun d => d.metadata.answer)
        ≠ ["\"\""]
    ∧ ((prepare_data [⟨"t", "c", "q", ["\"\""]⟩]).map fun d => d.metadata.has_answer)
        = [false] := by
  constructor
  · decide
  · decide

/-- C4 (amended): every document produced by `prepare_data` carries as
answer the *cleaned* first answer string (URL-unquoted, underscores
turned into spaces) *with all double-quote characters removed* — or the
empty string when the answers list is empty; `has_answer` is true iff
that produced answer string is non-empty; and the normalized context and
question contain no newline characters. -/
theorem claim_C4_amended (data : List RawRecord) :
    prepare_data data = data.map (fun r => prepare_one (clean_record r))
    ∧ ∀ r : RawRecord,
        (prepare_one (clean_record r)).metadata.answer
            = ((r.answersText.head?).map fun a =>
                strReplaceChar (clean_text a) '"' "").getD ""
        ∧ ((prepare_one (clean_record r)).metadata.has_answer = true
            ↔ (prepare_one (clean_record r)).metadata.answer ≠ "")
        ∧ '\n' ∉ (prepare_one (clean_record r)).metadata.context.data
        ∧ '\n' ∉ (prepare_one (clean_record r)).metadata.question.data := by
  refine ⟨by rw [prepare_data, List.map_map]; rfl, ?_⟩
  intro r
  refine ⟨?_, ?_, ?_, ?_⟩
  · rcases h : r.answersText with _ | ⟨a, as⟩ <;>
      simp [prepare_one, extracted_answer, clean_record, h]
  · simp [prepare_one]
  · exact not_mem_strReplaceChar _ (by decide)
  · exact not_mem_strReplaceChar _ (by decide)

/-- C6: the request `rrf_search` issues has exactly two prefetch
candidate lists — a dense semantic one (`jina-small` vectors with the
dense embedding model) and a sparse lexical one (`bm25` with the sparse
model) — each over-fetching `3 × limit` candidates for the query text;
the fused (RRF) result is requested truncated to `limit`; and the
orchestrator's retrieval phase calls `rrf_search` with the fixed
limit 2. -/
theorem claim_C6 (query : String) (limit : Nat) (vs : VectorStore)
    (c : ClockTrace) :
    (rrf_request query limit).prefetch.map Prefetch.usingName
        = ["jina-small", "bm25"]
    ∧ (rrf_request query limit).prefetch.map Prefetch.model
        = [dense_model, sparse_model]
    ∧ (rrf_request query limit).prefetch.map Prefetch.queryText = [query, query]
    ∧ (rrf_request query limit).prefetch.map Prefetch.limit
        = [3 * limit, 3 * limit]
    ∧ (rrf_request query limit).fusion = Fusion.RRF
    ∧ (rrf_request query limit).limit = limit
    ∧ rag_retrieval vs c query = rrf_search vs c query 2 :=
  ⟨rfl, rfl, rfl, rfl, rfl, rfl, rfl⟩

/-- C7: the context `build_prompt` assembles is, line for line, the
blocks of the retrieved results in retrieval order — four lines per
result, labelled `Context:`/`Question:`/`Answer:`/`Has_answer:` (each
label left-justified to width 10) — with one blank line between
consecutive blocks. -/
theorem claim_C7 (search_results : List ScoredPoint) :
    build_context search_results
        = pyJoin "\n" (linesWithBlankSep
            (search_results.map fun res => blockLines res.payload.metadata))
    ∧ (∀ md : Metadata, (blockLines md).length = 4)
    ∧ ∀ md : Metadata,
        List.Forall₂ (fun lab line => lab.data <+: line.data)
          [ljust "Context:" 10, ljust "Question:" 10, ljust "Answer:" 10,
            ljust "Has_answer:" 10] (blockLines md) := by
  refine ⟨?_, fun _ => rfl, ?_⟩
  · rw [build_context]
    have hmap : (search_results.map fun res => render_block res.payload.metadata)
        = (search_results.map fun res => blockLines res.payload.metadata).map
            (pyJoin "\n") := by
      simp [List.map_map, render_block_eq]
    rw [hmap, pyJoin_blocks_eq]
    intro b hb
    obtain ⟨res, _, rfl⟩ := List.mem_map.mp hb
    simp [blockLines]
  · intro md
    refine List.Forall₂.cons ?_ (List.Forall₂.cons ?_ (List.Forall₂.cons ?_
      (List.Forall₂.cons ?_ List.Forall₂.nil))) <;>
      exact String.data_append _ _ ▸ List.prefix_append _ _

/-- C8: when the vector store returns zero candidates, `rrf_search`
returns an outcome with an empty result list and a retrieved-documents
count of 0 (it is a total function — nothing is raised), and
`build_prompt` accepts that empty list, producing the user turn with an
empty context block. -/
theorem claim_C8 (vs : VectorStore) (c : ClockTrace) (query : String)
    (limit : Nat) (h : vs (rrf_request query limit) = []) :
    (rrf_search vs c query limit).points = []
    ∧ (rrf_search vs c query limit).retrieved_docs_count = 0
    ∧ build_prompt query (rrf_search vs c query limit).points
        = [ { role := "system", content := systemContent }
          , { role := "user"
              content := "QUESTION:\n " ++ query ++ "\n CONTEXT:\n " } ] := by
  refine ⟨by simp [rrf_search, h], by simp [rrf_search, h], ?_⟩
  simp [rrf_search, h, build_prompt, build_context, pyJoin, pyStrip,
    String.append_empty]

/-! ### Concrete fixtures used by the witnesses -/

/-- A clock trace with all instants at 0. -/
def zeroClock : ClockTrace := ⟨0, 0, 0, 0, 0, 0⟩

/-- A vector store that returns no candidates for any request. -/
def emptyStore : VectorStore := fun _ => []

theorem claim_C8_witness :
    emptyStore (rrf_request "q" 2) = []
    ∧ ((rrf_search emptyStore zeroClock "q" 2).points = []
      ∧ (rrf_search emptyStore zeroClock "q" 2).retrieved_docs_count = 0
      ∧ build_prompt "q" (rrf_search emptyStore zeroClock "q" 2).points
          = [ { role := "system", content := systemContent }
            , { role := "user"
                content := "QUESTION:\n " ++ "q" ++ "\n CONTEXT:\n " } ]) :=
  ⟨rfl, claim_C8 emptyStore zeroClock "q" 2 rfl⟩

/-! ### Characterisation of `rag` and the timing lemmas -/

/-- What one `rag` call computes, case-split on the LLM service's
response. -/
theorem rag_eq (vs : VectorStore) (svc : LlmService) (c : ClockTrace)
    (query : String) :
    rag vs svc c query =
      match svc (rag_llm_request vs c query) with
      | .error e => .error e
      | .ok resp =>
        match resp.choices with
        | [] => .error indexErrorMsg
        | choice :: _ =>
          .ok [ ("answer", .str choice.content)
              , ("metrics", .dict
                  [ ("total_tokens", .num resp.usage.total_tokens)
                  , ("generation_time_ms", .num (pyInt ((c.t4 - c.t3) * 1000)))
                  , ("model_used", .str llm_default_model)
                  , ("retrieval_time_ms", .num (pyInt ((c.t2 - c.t1) * 1000)))
                  , ("total_time_ms", .num (pyInt ((c.t5 - c.t0) * 1000)))
                  , ("retrieved_docs_count",
                      .num ((vs (rrf_request query 2)).length))
                  , ("qdrant_collection", .str collection_name) ]) ] := by
  simp only [rag, llm_response, rag_llm_request]
  rcases hs : svc { messages := build_prompt query (rag_retrieval vs c query).points
                    model := llm_default_model } with e | resp
  · rfl
  · rcases hc : resp.choices with _ | ⟨choice, rest⟩ <;>
      simp [hc, rag_retrieval, rrf_search, rrf_search_default_limit]

theorem pyInt_zero : pyInt 0 = 0 := by simp [pyInt]

/-- Truncation is superadditive on nonnegative durations. -/
theorem pyInt_superadd {a b d : ℚ} (ha : 0 ≤ a) (hb : 0 ≤ b)
    (h : a + b ≤ d) : pyInt a + pyInt b ≤ pyInt d := by
  have hd : 0 ≤ d := le_trans (add_nonneg ha hb) h
  rw [pyInt, if_pos ha, pyInt, if_pos hb, pyInt, if_pos hd]
  have h1 : ⌊a⌋ + ⌊b⌋ ≤ ⌊a + b⌋ := by
    rw [Int.le_floor]
    push_cast
    exact add_le_add (Int.floor_le a) (Int.floor_le b)
  exact le_trans h1 (Int.floor_mono h)

/-- C5: on every successful `rag` call whose wall clock is monotone, the
reported total time dominates the sum of the reported retrieval and
generation times. -/
theorem claim_C5 (vs : VectorStore) (svc : LlmService) (c : ClockTrace)
    (query : String) (d : List (String × TopValue))
    (hmono : ClockMono c) (h : rag vs svc c query = .ok d) :
    ∃ (m : List (String × MetricValue)) (tot ret gen : ℤ),
      dictGet d "metrics" = some (.dict m)
      ∧ dictGet m "total_time_ms" = some (.num tot)
      ∧ dictGet m "retrieval_time_ms" = some (.num ret)
      ∧ dictGet m "generation_time_ms" = some (.num gen)
      ∧ ret + gen ≤ tot := by
  rw [rag_eq] at h
  rcases hs : svc (rag_llm_request vs c query) with e | resp <;> rw [hs] at h <;>
    simp only [] at h
  · simp at h
  · rcases hc : resp.choices with _ | ⟨choice, rest⟩ <;> simp only [hc] at h
    · simp at h
    · rw [Except.ok.injEq] at h
      subst h
      obtain ⟨h01, h12, h23, h34, h45⟩ := hmono
      refine ⟨_, pyInt ((c.t5 - c.t0) * 1000), pyInt ((c.t2 - c.t1) * 1000),
        pyInt ((c.t4 - c.t3) * 1000), rfl, rfl, rfl, rfl, ?_⟩
      apply pyInt_superadd
      · exact mul_nonneg (sub_nonneg.mpr h12) (by norm_num)
      · exact mul_nonneg (sub_nonneg.mpr h34) (by norm_num)
      · rw [← add_mul]
        apply mul_le_mul_of_nonneg_right _ (by norm_num : (0 : ℚ) ≤ 1000)
        linarith

/-- C9: the pipeline has no handler or retry around its sub-calls: if the
LLM service call errors, `llm_response` fails with that very error and
`rag` returns it unchanged to its caller; if the service responds with no
choice, `llm_response` fails with the index error and `rag` returns that
error unchanged. -/
theorem claim_C9 (vs : VectorStore) (svc : LlmService) (c : ClockTrace)
    (query : String) :
    (∀ e : String, svc (rag_llm_request vs c query) = .error e →
      llm_response svc c (build_prompt query (rag_retrieval vs c query).points)
          llm_default_model = .error e
      ∧ rag vs svc c query = .error e)
    ∧ ∀ resp : LlmApiResponse,
        svc (rag_llm_request vs c query) = .ok resp → resp.choices = [] →
        llm_response svc c (build_prompt query (rag_retrieval vs c query).points)
            llm_default_model = .error indexErrorMsg
        ∧ rag vs svc c query = .error indexErrorMsg := by
  constructor
  · intro e he
    constructor
    · simp only [llm_response]
      rw [show ({ messages := build_prompt query (rag_retrieval vs c query).points
                  model := llm_default_model } : LlmRequest)
            = rag_llm_request vs c query from rfl, he]
    · rw [rag_eq, he]
  · intro resp hresp hchoices
    constructor
    · simp only [llm_response]
      rw [show ({ messages := build_prompt query (rag_retrieval vs c query).points
                  model := llm_default_model } : LlmRequest)
            = rag_llm_request vs c query from rfl, hresp]
      simp [hchoices]
    · rw [rag_eq, hresp]
      simp [hchoices]

/-- C10: a successful `rag` result has exactly the top-level keys
`answer` and `metrics`; its metrics dict has exactly the seven keys
`total_tokens`, `generation_time_ms`, `model_used`, `retrieval_time_ms`,
`total_time_ms`, `retrieved_docs_count` and `qdrant_collection` — in
particular no `prompt_tokens`, `completion_tokens` or `context_used`
entry — although the chat UI's `log_answer` call reads `context_used`
from the result and `prompt_tokens`/`completion_tokens` from the
metrics. -/
theorem claim_C10 (vs : VectorStore) (svc : LlmService) (c : ClockTrace)
    (query : String) (d : List (String × TopValue))
    (h : rag vs svc c query = .ok d) :
    d.map Prod.fst = ["answer", "metrics"]
    ∧ ∃ m : List (String × MetricValue),
        dictGet d "metrics" = some (.dict m)
        ∧ m.map Prod.fst
            = [ "total_tokens", "generation_time_ms", "model_used"
              , "retrieval_time_ms", "total_time_ms", "retrieved_docs_count"
              , "qdrant_collection" ]
        ∧ dictGet m "prompt_tokens" = none
        ∧ dictGet m "completion_tokens" = none
        ∧ dictGet d "context_used" = none
        ∧ "context_used" ∈ app_result_reads
        ∧ "prompt_tokens" ∈ app_metrics_reads
        ∧ "completion_tokens" ∈ app_metrics_reads := by
  rw [rag_eq] at h
  rcases hs : svc (rag_llm_request vs c query) with e | resp <;> rw [hs] at h <;>
    simp only [] at h
  · simp at h
  · rcases hc : resp.choices with _ | ⟨choice, rest⟩ <;> simp only [hc] at h
    · simp at h
    · rw [Except.ok.injEq] at h
      subst h
      exact ⟨rfl, _, rfl, rfl, rfl, rfl, rfl, by decide, by decide, by decide⟩

/-! ### Witness fixtures for the generation claims -/

/-- A service that always answers with one choice `"ans"` and a usage of
1 prompt, 2 completion and 3 total tokens. -/
def okService : LlmService :=
  fun _ => .ok { choices := [{ content := "ans" }], usage := ⟨1, 2, 3⟩ }

/-- A service whose call always raises. -/
def errService : LlmService := fun _ => .error "boom"

/-- A service answering with an empty choice list. -/
def noChoiceService : LlmService :=
  fun _ => .ok { choices := [], usage := ⟨0, 0, 0⟩ }

/-- The result dict of `rag` on `emptyStore`, `okService` and
`zeroClock`. -/
def ragResultFixture : List (String × TopValue) :=
  [ ("answer", .str "ans")
  , ("metrics", .dict
      [ ("total_tokens", .num 3)
      , ("generation_time_ms", .num 0)
      , ("model_used", .str "openai/gpt-oss-20b")
      , ("retrieval_time_ms", .num 0)
      , ("total_time_ms", .num 0)
      , ("retrieved_docs_count", .num 0)
      , ("qdrant_collection", .str "squad_rag") ]) ]

theorem rag_fixture_eq :
    rag emptyStore okService zeroClock "q" = .ok ragResultFixture := by
  rw [rag_eq]
  simp [okService, emptyStore, zeroClock, pyInt_zero, ragResultFixture,
    llm_default_model, collection_name]

theorem zeroClock_mono : ClockMono zeroClock := by
  simp [ClockMono, zeroClock]

theorem claim_C5_witness :
    ClockMono zeroClock
    ∧ rag emptyStore okService zeroClock "q" = .ok ragResultFixture
    ∧ ∃ (m : List (String × MetricValue)) (tot ret gen : ℤ),
        dictGet ragResultFixture "metrics" = some (.dict m)
        ∧ dictGet m "total_time_ms" = some (.num tot)
        ∧ dictGet m "retrieval_time_ms" = some (.num ret)
        ∧ dictGet m "generation_time_ms" = some (.num gen)
        ∧ ret + gen ≤ tot :=
  ⟨zeroClock_mono, rag_fixture_eq,
    claim_C5 emptyStore okService zeroClock "q" ragResultFixture
      zeroClock_mono rag_fixture_eq⟩

theorem claim_C9_witness :
    (errService (rag_llm_request emptyStore zeroClock "q") = .error "boom"
      ∧ rag emptyStore errService zeroClock "q" = .error "boom")
    ∧ noChoiceService (rag_llm_request emptyStore zeroClock "q")
        = .ok { choices := [], usage := ⟨0, 0, 0⟩ }
    ∧ rag emptyStore noChoiceService zeroClock "q" = .error indexErrorMsg :=
  ⟨⟨rfl, ((claim_C9 emptyStore errService zeroClock "q").1 "boom" rfl).2⟩,
    rfl, ((claim_C9 emptyStore noChoiceService zeroClock "q").2
      { choices := [], usage := ⟨0, 0, 0⟩ } rfl rfl).2⟩

theorem claim_C10_witness :
    rag emptyStore okService zeroClock "q" = .ok ragResultFixture
    ∧ ragResultFixture.map Prod.fst = ["answer", "metrics"]
    ∧ ∃ m : List (String × MetricValue),
        dictGet ragResultFixture "metrics" = some (.dict m)
        ∧ m.map Prod.fst
            = [ "total_tokens", "generation_time_ms", "model_used"
              , "retrieval_time_ms", "total_time_ms", "retrieved_docs_count"
              , "qdrant_collection" ]
        ∧ dictGet m "prompt_tokens" = none
        ∧ dictGet m "completion_tokens" = none
        ∧ dictGet ragResultFixture "context_used" = none
        ∧ "context_used" ∈ app_result_reads
        ∧ "prompt_tokens" ∈ app_metrics_reads
        ∧ "completion_tokens" ∈ app_metrics_reads :=
  ⟨rag_fixture_eq,
    (claim_C10 emptyStore okService zeroClock "q" ragResultFixture
      rag_fixture_eq).1,
    (claim_C10 emptyStore okService zeroClock "q" ragResultFixture
      rag_fixture_eq).2⟩

end RagSpec
